import Mathlib

/-!
Verification of the cross-chain gateway service and the oracle config parser.

The development shallowly embeds two TypeScript modules:
  - src/backend/src/circle/gateway-service.ts (balance aggregation, burn-intent
    construction and EIP-712 typed-data signing, domain registry tables);
  - the oracle service module (parseOracleConfig over JSON-like values).

Machine numbers (JS bigint, number) are modelled as Int / Nat with exact
arithmetic; JS records and Maps are modelled as association lists with
overwrite-on-set semantics; fallible code (throwing) returns Option / Except.
-/

-- ═══════════════════════════════════════════════════════════════════════════
-- Shared helpers: association lists with JS record / Map semantics
-- ═══════════════════════════════════════════════════════════════════════════

/-- Lookup in an association list: first binding for the key wins.  Models
reading a JS record property or Map.get; `none` models `undefined`. -/
def assocGet {κ α : Type} [DecidableEq κ] : List (κ × α) → κ → Option α
  | [], _ => none
  | (k2, v) :: tl, k => if k2 = k then some v else assocGet tl k

/-- Overwrite-or-append update of an association list.  Models assigning a JS
record property or Map.set: an existing binding is replaced in place, a fresh
key is appended (insertion order preserved). -/
def assocSet {κ α : Type} [DecidableEq κ] : List (κ × α) → κ → α → List (κ × α)
  | [], k, v => [(k, v)]
  | (k2, v2) :: tl, k, v =>
      if k2 = k then (k, v) :: tl else (k2, v2) :: assocSet tl k v

/-- Numeric value of a list of decimal digit characters (most significant
first), as produced by JS digit parsing. -/
def digitsVal (cs : List Char) : Nat :=
  cs.foldl (fun acc c => 10 * acc + (c.toNat - 48)) 0

namespace Gateway

-- ═══════════════════════════════════════════════════════════════════════════
-- Data model (gateway-service.ts)
-- ═══════════════════════════════════════════════════════════════════════════

/-- `interface UnifiedBalance` of gateway-service.ts.  `chainBalances` is the
`Record<number, bigint>` per-domain balance map, modelled as an association
list built with `assocSet`. -/
structure UnifiedBalance where
  address : String
  totalBalance : Int
  chainBalances : List (Int × Int)
  lastUpdated : Nat
deriving DecidableEq, Repr

/-- One element of `GatewayBalanceResponse.balances`: a domain id together
with the balance reported by the external service as a decimal string. -/
structure BalanceEntry where
  domain : Int
  balance : String
deriving DecidableEq, Repr

/-- Models the JS string method `toLowerCase()` on the ASCII addresses the
service handles: lower-case every character. -/
def toLowerCase (s : String) : String :=
  String.mk (s.data.map Char.toLower)

/-- Sum of the values of a per-domain balance map. -/
def sumValues (m : List (Int × Int)) : Int :=
  (m.map Prod.snd).sum

/-- The balance-map invariant claimed by the spec: the stored total equals the
sum of the per-domain map values. -/
def balInv (b : UnifiedBalance) : Prop :=
  b.totalBalance = sumValues b.chainBalances

-- ═══════════════════════════════════════════════════════════════════════════
-- Static registry tables (GatewayApiClient.DOMAINS / CHAINS, chain ids)
-- ═══════════════════════════════════════════════════════════════════════════

/-- `GatewayApiClient.DOMAINS`: chain name → CCTP domain id. -/
def DOMAINS : List (String × Int) :=
  [("ethereum", 0), ("mainnet", 0), ("sepolia", 0),
   ("avalanche", 1), ("avalancheFuji", 1),
   ("arbitrum", 3), ("arbitrumSepolia", 3),
   ("base", 6), ("baseSepolia", 6)]

/-- `GatewayApiClient.CHAINS`: the domain registry of known CCTP domain ids. -/
def CHAINS : List (Int × String) :=
  [(0, "Ethereum"), (1, "Avalanche"), (3, "Arbitrum"), (6, "Base")]

/-- `getChainIdForDomain` of CircleGatewayService: the internal
`mapping[domain] || 0` lookup.  A missing key yields `undefined`, and
`undefined || 0` evaluates to 0, so the function is total and returns 0 for
every unknown domain. -/
def getChainIdForDomain (domain : Int) : Int :=
  let mapping : List (Int × Int) :=
    [(0, 11155111), (1, 43113), (3, 421614), (6, 84532)]
  (assocGet mapping domain).getD 0

-- ═══════════════════════════════════════════════════════════════════════════
-- Balance parsing (getUnifiedBalance success path)
-- ═══════════════════════════════════════════════════════════════════════════

/-- Models `BigInt(Math.floor(parseFloat(balance.balance) * 1e6))` from
getUnifiedBalance, with exact rational arithmetic in place of IEEE doubles:
the longest leading `digits [. digits]` prefix of the string is read as the
rational i + f / 10^k and the result is the floor of its product with 10^6.
`none` models the case where parseFloat yields NaN (no leading digits), where
`BigInt(NaN)` throws a RangeError caught by the surrounding try block.
Not modelled: signs, exponents, Infinity, leading whitespace, and double
rounding on values that are not exactly representable; every balance string
appearing in the claims (such as "10.0", "5.5", "1.0") is computed exactly
and identically by the source and by this model. -/
def parseBalance (s : String) : Option Int :=
  let cs := s.data
  let intPart := cs.takeWhile Char.isDigit
  let rest := cs.dropWhile Char.isDigit
  let fracPart :=
    match rest with
    | '.' :: tl => tl.takeWhile Char.isDigit
    | _ => []
  if intPart.isEmpty && fracPart.isEmpty then
    none
  else
    some (Int.ofNat
      (digitsVal intPart * 1000000 + digitsVal fracPart * 1000000 / 10 ^ fracPart.length))

/-- The balance-parsing loop of getUnifiedBalance, fail-fast: each response
entry is parsed with `parseBalance`; the first entry whose parse throws aborts
the whole try block (modelled as `none`). -/
def parseEntries : List BalanceEntry → Option (List (Int × Int))
  | [] => some []
  | e :: tl =>
      match parseBalance e.balance with
      | none => none
      | some a => (parseEntries tl).map (fun r => (e.domain, a) :: r)

/-- The `chainBalances[balance.domain] = amount` accumulation of
getUnifiedBalance: successive record assignments starting from `{}`. -/
def buildRecord (l : List (Int × Int)) : List (Int × Int) :=
  l.foldl (fun m p => assocSet m p.1 p.2) []

-- ═══════════════════════════════════════════════════════════════════════════
-- getUnifiedBalance
-- ═══════════════════════════════════════════════════════════════════════════

/-- `getUnifiedBalance` of CircleGatewayService.  The external call
`gatewayClient.balances` is modelled by its outcome: `response = none` is a
failed call (network error or non-2xx status), `some entries` a successful
one.  `cache` is the `balanceCache` Map (keyed by lower-cased address), `now`
the value of Date.now().  The result pairs the returned UnifiedBalance with
the cache after the call.  On success the unified balance is computed, cached
under the lower-cased address and returned; on any failure (including a
throwing balance parse) the previously cached entry is returned unchanged if
present, and otherwise a zero balance stamped `now` — the failure itself is
never rethrown to the caller. -/
def getUnifiedBalance (cache : List (String × UnifiedBalance)) (address : String)
    (response : Option (List BalanceEntry)) (now : Nat) :
    UnifiedBalance × List (String × UnifiedBalance) :=
  match response.bind parseEntries with
  | some parsed =>
      let chainBalances := buildRecord parsed
      let totalBalance := (parsed.map Prod.snd).sum
      let unified : UnifiedBalance :=
        { address := address
          totalBalance := totalBalance
          chainBalances := chainBalances
          lastUpdated := now }
      (unified, assocSet cache (toLowerCase address) unified)
  | none =>
      match assocGet cache (toLowerCase address) with
      | some cached => (cached, cache)
      | none =>
          ({ address := address
             totalBalance := 0
             chainBalances := []
             lastUpdated := now }, cache)

-- ═══════════════════════════════════════════════════════════════════════════
-- Burn intents and EIP-712 typed data
-- ═══════════════════════════════════════════════════════════════════════════

/-- `interface BurnIntent` of gateway-service.ts. -/
structure BurnIntent where
  depositor : String
  amount : Int
  nonce : Int
  sourceDomain : Int
  destinationDomain : Int
  recipient : String
  maxFee : Int
  deadline : Int
deriving DecidableEq, Repr

/-- The EIP-712 domain separator built by `createBurnIntentTypedData`.
`verifyingContract` is an Option because `walletContracts[source.domain]` is
`undefined` for a domain absent from the table. -/
structure TypedDataDomain where
  name : String
  version : String
  chainId : Int
  verifyingContract : Option String
deriving DecidableEq, Repr

/-- The EIP-712 message of `createBurnIntentTypedData`: the eight BurnIntent
fields with `recipient` re-encoded as a bytes32 hex string. -/
structure BurnIntentMessage where
  depositor : String
  amount : Int
  nonce : Int
  sourceDomain : Int
  destinationDomain : Int
  recipient : String
  maxFee : Int
  deadline : Int
deriving DecidableEq, Repr

/-- The typed-data payload returned by `createBurnIntentTypedData` (the
constant `types` / `primaryType` fields are omitted: they carry no data). -/
structure BurnIntentTypedData where
  domain : TypedDataDomain
  message : BurnIntentMessage
deriving DecidableEq, Repr

/-- Models the JS string method `slice(n)` on the ASCII strings used for
addresses: drop the first `n` characters. -/
def sliceFrom (s : String) (n : Nat) : String :=
  String.mk (s.data.drop n)

/-- `createBurnIntentTypedData` of gateway-service.ts: builds the EIP-712
payload; the recipient address is converted to bytes32 format by prepending
24 zero hex characters (12 zero bytes) to the address without its 0x tag. -/
def createBurnIntentTypedData (intent : BurnIntent)
    (walletContractAddress : Option String) (chainId : Int) : BurnIntentTypedData :=
  let recipientBytes32 := "0x000000000000000000000000" ++ sliceFrom intent.recipient 2
  { domain :=
      { name := "GatewayWallet"
        version := "1"
        chainId := chainId
        verifyingContract := walletContractAddress }
    message :=
      { depositor := intent.depositor
        amount := intent.amount
        nonce := intent.nonce
        sourceDomain := intent.sourceDomain
        destinationDomain := intent.destinationDomain
        recipient := recipientBytes32
        maxFee := intent.maxFee
        deadline := intent.deadline } }

-- ═══════════════════════════════════════════════════════════════════════════
-- transferToVault
-- ═══════════════════════════════════════════════════════════════════════════

/-- The mutable fields of CircleGatewayService that transferToVault reads:
`walletClient` (None until `initialize` binds a signing account — the
Uninitialized state), the configured `vaultAddress`, and the
`walletContracts` table (domain id → gateway wallet contract address). -/
structure ServiceState where
  walletClient : Option String
  vaultAddress : String
  walletContracts : List (Int × String)
deriving DecidableEq, Repr

/-- The initial `walletContracts` table of the class, holding the placeholder
address for each registry domain until the startup refresh overwrites it. -/
def initialWalletContracts : List (Int × String) :=
  [(0, "0x..."), (1, "0x..."), (3, "0x..."), (6, "0x...")]

/-- One element of the `sources` argument of transferToVault:
`{ domain: number; amount: string }`. -/
structure SourceEntry where
  domain : Int
  amount : String
deriving DecidableEq, Repr

/-- Models the JS conversion `BigInt(source.amount)` on a string: an optional
minus sign followed by decimal digits (the empty string converts to 0); any
other string throws a SyntaxError, modelled as `none`.  Hex / octal / binary
tags and surrounding whitespace, which BigInt also accepts, are not modelled;
no claim exercises them. -/
def parseBigInt (s : String) : Option Int :=
  match s.data with
  | [] => some 0
  | '-' :: tl =>
      if tl ≠ [] && tl.all Char.isDigit then some (-(digitsVal tl : Int)) else none
  | cs => if cs.all Char.isDigit then some (Int.ofNat (digitsVal cs)) else none

/-- The signing loop of transferToVault.  For each source entry a BurnIntent
is built (depositor, parsed amount, Date.now() nonce, the source domain, the
fixed destination domain, the vault address as recipient, zero maxFee, the
shared deadline), the typed data is assembled from the chain id and wallet
contract looked up for the source domain, and the injected signing capability
`sign` (walletClient.signTypedData) produces the signature.  `nonceClock i`
models the fresh `Date.now()` call of iteration `i`.  A failing amount
conversion aborts the whole call (`Except.error`). -/
def buildSignedIntents (svc : ServiceState) (userAddress : String)
    (destinationDomain : Int) (deadline : Int) (nonceClock : Nat → Int)
    (sign : BurnIntentTypedData → String) :
    List SourceEntry → Nat → Except String (List (BurnIntent × String))
  | [], _ => .ok []
  | source :: tl, i =>
      match parseBigInt source.amount with
      | none => .error "Cannot convert amount to a BigInt"
      | some amt =>
          let burnIntent : BurnIntent :=
            { depositor := userAddress
              amount := amt
              nonce := nonceClock i
              sourceDomain := source.domain
              destinationDomain := destinationDomain
              recipient := svc.vaultAddress
              maxFee := 0
              deadline := deadline }
          let chainId := getChainIdForDomain source.domain
          let walletContract := assocGet svc.walletContracts source.domain
          let typedData := createBurnIntentTypedData burnIntent walletContract chainId
          let signature := sign typedData
          (buildSignedIntents svc userAddress destinationDomain deadline nonceClock sign
              tl (i + 1)).map
            (fun rest => (burnIntent, signature) :: rest)

/-- `transferToVault` of CircleGatewayService.  Throws (returns an error)
when the service is Uninitialized (`walletClient = none`), before any intent
is built or signed.  Otherwise it signs one burn intent per sources entry and
submits them as one batch via `gatewayClient.transfer`; the returned list is
that submitted batch.  `totalAmount` is the `_totalAmount` parameter of the
source, accepted and never read.  `nowMs` is the Date.now() value used for
the shared deadline `floor(nowMs / 1000) + 3600`; `nonceClock` and `sign` are
the per-iteration clock and the signing capability. -/
def transferToVault (svc : ServiceState) (userAddress : String)
    (sources : List SourceEntry) (totalAmount : Int) (nowMs : Nat)
    (nonceClock : Nat → Int) (sign : BurnIntentTypedData → String) :
    Except String (List (BurnIntent × String)) :=
  match svc.walletClient with
  | none => .error "Service not initialized"
  | some _ =>
      let destinationDomain := (assocGet DOMAINS "arbitrumSepolia").getD 0
      let deadline : Int := Int.ofNat (nowMs / 1000 + 3600)
      buildSignedIntents svc userAddress destinationDomain deadline nonceClock sign sources 0

end Gateway

namespace Oracle

-- ═══════════════════════════════════════════════════════════════════════════
-- Oracle service: parseOracleConfig over JSON values
-- ═══════════════════════════════════════════════════════════════════════════

/-- The universe of values `parseOracleConfig` receives.  Its doc comment in
the source says the input comes from JSON, so the model is the JSON value
universe: null, booleans, numbers (exact rationals — JSON literals denote no
NaN or Infinity), strings, arrays and objects.  Object field lists are
assumed key-unique, as JS object construction guarantees. -/
inductive Js where
  | nullV : Js
  | boolV : Bool → Js
  | numV : ℚ → Js
  | strV : String → Js
  | arrV : List Js → Js
  | objV : List (String × Js) → Js
deriving Repr

/-- JS truthiness of a JSON value (falsy: null, false, 0, the empty string). -/
def truthy : Js → Bool
  | .nullV => false
  | .boolV b => b
  | .numV q => q ≠ 0
  | .strV s => s ≠ ""
  | .arrV _ => true
  | .objV _ => true

/-- Property read `v[k]`: defined only on objects; `none` models
`undefined` (also for arrays, whose JSON form has no named fields). -/
def getField : Js → String → Option Js
  | .objV fields, k => assocGet fields k
  | _, _ => none

/-- The `typeof json === "object"` test, combined with the preceding
`!json` guard of parseOracleConfig: null is falsy and rejected first, so the
values that reach the body are exactly arrays and objects. -/
def isObject : Js → Bool
  | .arrV _ => true
  | .objV _ => true
  | _ => false

/-- The JS short-circuit `v || d` applied to a possibly-undefined property
read: the property value when present and truthy, else the default. -/
def orDefault (v : Option Js) (d : Js) : Js :=
  match v with
  | some x => if truthy x then x else d
  | none => d

mutual

/-- The JS String() coercion on JSON values.  Arrays join their elements with
commas (JS renders null elements as the empty string inside arrays; this model
renders them as "null" — no claim evaluates that case), objects render as
"[object Object]".  Non-integer numbers are rendered as numerator/denominator
rather than the JS decimal expansion — again unexercised by any claim, which
only coerces string or falsy asset fields. -/
def jsToString : Js → String
  | .nullV => "null"
  | .boolV b => if b then "true" else "false"
  | .numV q => if q.den = 1 then toString q.num else toString q.num ++ "/" ++ toString q.den
  | .strV s => s
  | .arrV xs => String.intercalate "," (jsToStringList xs)
  | .objV _ => "[object Object]"

/-- String() coercion of each element of an array. -/
def jsToStringList : List Js → List String
  | [] => []
  | x :: xs => jsToString x :: jsToStringList xs

end

/-- Numeric parse of a string under the JS Number() coercion: surrounding
spaces are trimmed, the empty remainder converts to 0, and otherwise the
whole remainder must be an optionally signed decimal literal; anything else
is NaN (`none`).  Exponents and hex tags, which Number() also accepts, are
not modelled; no claim exercises them. -/
def strToNumber (s : String) : Option ℚ :=
  let cs := (s.data.dropWhile (· = ' ')).reverse.dropWhile (· = ' ') |>.reverse
  match cs with
  | [] => some 0
  | _ =>
      let sign : ℚ := if cs.headD ' ' = '-' then -1 else 1
      let body := if cs.headD ' ' = '-' || cs.headD ' ' = '+' then cs.tail else cs
      let intPart := body.takeWhile Char.isDigit
      let rest := body.dropWhile Char.isDigit
      let fracPart :=
        match rest with
        | '.' :: tl => tl.takeWhile Char.isDigit
        | _ => []
      let restOk :=
        match rest with
        | [] => true
        | '.' :: tl => tl.all Char.isDigit
        | _ => false
      if body ≠ [] && restOk && (intPart ≠ [] || fracPart ≠ []) then
        some (sign * ((digitsVal intPart : ℚ) +
          (digitsVal fracPart : ℚ) / ((10 : ℚ) ^ fracPart.length)))
      else
        none

/-- The JS Number() coercion on JSON values: null → 0, booleans → 0 / 1,
numbers unchanged, everything else via its String() rendering parsed as a
numeric literal.  `none` models NaN.  Number() throws on no JSON value, so
the coercion is total. -/
def jsNumber : Js → Option ℚ
  | .nullV => some 0
  | .boolV b => some (if b then 1 else 0)
  | .numV q => some q
  | .strV s => strToNumber s
  | .arrV xs => strToNumber (jsToString (.arrV xs))
  | .objV fields => strToNumber (jsToString (.objV fields))

/-- The price-config record parseOracleConfig builds for `type: "price"`.
`asset` is the String() coercion of the asset field (default "").
`condition` is the raw field value cast to PriceCondition without runtime
validation (default the string ">"), so it is kept as a JSON value here.
`targetPrice` is the Number() coercion of the field (default 0); `none`
models NaN. -/
structure PriceOracleConfig where
  asset : String
  condition : Js
  targetPrice : Option ℚ
deriving Repr

/-- The result type of parseOracleConfig: a price config or a manual marker. -/
inductive OracleConfig where
  | price : PriceOracleConfig → OracleConfig
  | manual : OracleConfig
deriving Repr

/-- `parseOracleConfig` of the oracle service module.  Returns `none` (null)
for any input that is falsy or not of object type, and for any object whose
`type` field is neither "price" nor "manual".  For `type: "price"` it never
rejects: missing or falsy asset / condition / targetPrice fields are replaced
by the defaults "", ">" and 0, and truthy values are coerced (String /
unchecked cast / Number) rather than validated.  The function is total: on
the JSON value universe none of the coercions it performs can throw. -/
def parseOracleConfig (json : Js) : Option OracleConfig :=
  if !(truthy json) || !(isObject json) then
    none
  else
    match getField json "type" with
    | some (.strV "price") =>
        some (.price
          { asset := jsToString (orDefault (getField json "asset") (.strV ""))
            condition := orDefault (getField json "condition") (.strV ">")
            targetPrice := jsNumber (orDefault (getField json "targetPrice") (.numV 0)) })
    | some (.strV "manual") => some .manual
    | _ => none

/-- A possibly-undefined property value is missing-or-falsy: absent from the
object, or present with a falsy value. -/
def falsyField (v : Option Js) : Prop :=
  match v with
  | none => True
  | some x => truthy x = false

end Oracle

-- ═══════════════════════════════════════════════════════════════════════════
-- Helper lemmas
-- ═══════════════════════════════════════════════════════════════════════════

theorem assocGet_mem {κ α : Type} [DecidableEq κ] {m : List (κ × α)} {k : κ} {v : α}
    (h : assocGet m k = some v) : (k, v) ∈ m := by
  induction m with
  | nil => simp [assocGet] at h
  | cons p tl ih =>
      obtain ⟨k2, v2⟩ := p
      by_cases hk : k2 = k
      · subst hk
        simp only [assocGet, eq_self_iff_true, if_true, Option.some.injEq] at h
        subst h
        exact List.mem_cons_self _ _
      · simp only [assocGet, if_neg hk] at h
        exact List.mem_cons_of_mem _ (ih h)

theorem assocSet_not_mem {κ α : Type} [DecidableEq κ] {m : List (κ × α)} {k : κ} (v : α)
    (h : k ∉ m.map Prod.fst) : assocSet m k v = m ++ [(k, v)] := by
  induction m with
  | nil => rfl
  | cons p tl ih =>
      obtain ⟨k2, v2⟩ := p
      simp only [List.map_cons, List.mem_cons] at h
      push_neg at h
      simp only [assocSet, if_neg (fun hc : k2 = k => h.1 hc.symm), List.cons_append,
        List.cons.injEq, true_and]
      exact ih h.2

theorem foldl_assocSet {l : List (Int × Int)} : ∀ acc : List (Int × Int),
    (acc.map Prod.fst ++ l.map Prod.fst).Nodup →
    l.foldl (fun m p => assocSet m p.1 p.2) acc = acc ++ l := by
  induction l with
  | nil => intro acc _; simp
  | cons p tl ih =>
      intro acc h
      have hdis : p.1 ∉ acc.map Prod.fst := by
        rw [List.nodup_append] at h
        intro hc
        exact h.2.2 hc (by simp)
      rw [List.foldl_cons, assocSet_not_mem _ hdis, ih (acc ++ [(p.1, p.2)])
        (by simpa [List.append_assoc] using h)]
      simp

theorem buildRecord_nodup {l : List (Int × Int)} (h : (l.map Prod.fst).Nodup) :
    Gateway.buildRecord l = l := by
  have := foldl_assocSet (l := l) [] (by simpa using h)
  simpa [Gateway.buildRecord] using this

theorem parseEntries_domains : ∀ {l : List Gateway.BalanceEntry} {parsed : List (Int × Int)},
    Gateway.parseEntries l = some parsed →
    parsed.map Prod.fst = l.map Gateway.BalanceEntry.domain := by
  intro l
  induction l with
  | nil =>
      intro parsed h
      simp only [Gateway.parseEntries, Option.some.injEq] at h
      simp [← h]
  | cons e tl ih =>
      intro parsed h
      simp only [Gateway.parseEntries] at h
      cases hb : Gateway.parseBalance e.balance with
      | none => rw [hb] at h; exact absurd h (by simp)
      | some a =>
          rw [hb] at h
          cases ht : Gateway.parseEntries tl with
          | none => rw [ht] at h; exact absurd h (by simp)
          | some r =>
              rw [ht] at h
              simp only [Option.map_some', Option.some.injEq] at h
              subst h
              simp [ih ht]

theorem buildSignedIntents_ok :
    ∀ {srcs : List Gateway.SourceEntry} {i : Nat} {l : List (Gateway.BurnIntent × String)}
      {svc : Gateway.ServiceState} {u : String} {dd dl : Int} {nc : Nat → Int}
      {sg : Gateway.BurnIntentTypedData → String},
    Gateway.buildSignedIntents svc u dd dl nc sg srcs i = .ok l →
    l.map (fun p => p.1.sourceDomain) = srcs.map Gateway.SourceEntry.domain ∧
    ∀ p ∈ l, p.1.deadline = dl ∧ p.1.recipient = svc.vaultAddress ∧
      p.1.destinationDomain = dd ∧ p.1.depositor = u := by
  intro srcs
  induction srcs with
  | nil =>
      intro i l svc u dd dl nc sg h
      simp only [Gateway.buildSignedIntents, Except.ok.injEq] at h
      subst h
      simp
  | cons s tl ih =>
      intro i l svc u dd dl nc sg h
      simp only [Gateway.buildSignedIntents] at h
      cases hp : Gateway.parseBigInt s.amount with
      | none => rw [hp] at h; exact absurd h (by simp)
      | some amt =>
          rw [hp] at h
          cases hr : Gateway.buildSignedIntents svc u dd dl nc sg tl (i + 1) with
          | error e => rw [hr] at h; exact absurd h (by simp [Except.map])
          | ok rest =>
              rw [hr] at h
              simp only [Except.map, Except.ok.injEq] at h
              subst h
              obtain ⟨h1, h2⟩ := ih hr
              refine ⟨by simp [h1], ?_⟩
              intro p hp2
              rcases List.mem_cons.mp hp2 with rfl | hmem
              · exact ⟨rfl, rfl, rfl, rfl⟩
              · exact h2 p hmem

-- ═══════════════════════════════════════════════════════════════════════════
-- Claim theorems
-- ═══════════════════════════════════════════════════════════════════════════

/-- C2: for every address, if the external balance call fails,
getUnifiedBalance returns exactly the previously cached entry for that
address unchanged when one exists, and otherwise an entry with totalBalance
0, empty per-domain map, and the fresh timestamp `now`; in both cases the
cache is left unchanged and the failure is never propagated (the model
returns an ordinary value, mirroring the catch block that swallows the
error). -/
theorem C2_failure_returns_cached_or_zero (cache : List (String × Gateway.UnifiedBalance))
    (address : String) (now : Nat) :
    (∀ c, assocGet cache (Gateway.toLowerCase address) = some c →
      Gateway.getUnifiedBalance cache address none now = (c, cache)) ∧
    (assocGet cache (Gateway.toLowerCase address) = none →
      Gateway.getUnifiedBalance cache address none now =
        ({ address := address, totalBalance := 0, chainBalances := [],
           lastUpdated := now }, cache)) := by
  constructor
  · intro c hc
    simp [Gateway.getUnifiedBalance, hc]
  · intro hc
    simp [Gateway.getUnifiedBalance, hc]

/-- Witness for C2, at a one-entry cache hit and at the empty cache. -/
theorem C2_failure_returns_cached_or_zero_witness :
    Gateway.getUnifiedBalance [("0xab", ⟨"0xAB", 5, [(0, 5)], 1⟩)] "0xAB" none 99 =
      (⟨"0xAB", 5, [(0, 5)], 1⟩, [("0xab", ⟨"0xAB", 5, [(0, 5)], 1⟩)]) ∧
    Gateway.getUnifiedBalance [] "0xAB" none 99 =
      (⟨"0xAB", 0, [], 99⟩, []) :=
  ⟨(C2_failure_returns_cached_or_zero _ "0xAB" 99).1 _ (by decide),
   (C2_failure_returns_cached_or_zero [] "0xAB" 99).2 rfl⟩

/-- C3: transferToVault called in the Uninitialized state (walletClient not
yet bound by initialize) fails with the NotInitialized error for every input,
before any intent is built, signed or submitted. -/
theorem C3_not_initialized (svc : Gateway.ServiceState) (userAddress : String)
    (sources : List Gateway.SourceEntry) (totalAmount : Int) (nowMs : Nat)
    (nonceClock : Nat → Int) (sign : Gateway.BurnIntentTypedData → String)
    (h : svc.walletClient = none) :
    Gateway.transferToVault svc userAddress sources totalAmount nowMs nonceClock sign =
      .error "Service not initialized" := by
  unfold Gateway.transferToVault
  rw [h]

/-- Witness for C3 at a concrete uninitialized service state. -/
theorem C3_not_initialized_witness :
    Gateway.transferToVault ⟨none, "0xVault", Gateway.initialWalletContracts⟩ "0xUser"
      [⟨0, "1000000"⟩] 1000000 0 (fun _ => 0) (fun _ => "sig") =
        .error "Service not initialized" :=
  C3_not_initialized _ _ _ _ _ _ _ rfl

/-- C5: transferToVault ignores its totalAmount argument entirely — two calls
that differ only in totalAmount are equal as functions of the remaining
inputs — and, in particular, an initialized call whose totalAmount (2000000)
mismatches the sum of the sources amounts (1000000) still succeeds. -/
theorem C5_totalAmount_independent :
    (∀ (svc : Gateway.ServiceState) (u : String) (srcs : List Gateway.SourceEntry)
       (t1 t2 : Int) (nowMs : Nat) (nc : Nat → Int)
       (sg : Gateway.BurnIntentTypedData → String),
      Gateway.transferToVault svc u srcs t1 nowMs nc sg =
        Gateway.transferToVault svc u srcs t2 nowMs nc sg) ∧
    (∀ (k vault u : String) (wc : List (Int × String)) (nowMs : Nat) (nc : Nat → Int)
       (sg : Gateway.BurnIntentTypedData → String),
      ∃ l, Gateway.transferToVault ⟨some k, vault, wc⟩ u [⟨0, "1000000"⟩] 2000000
        nowMs nc sg = .ok l) := by
  refine ⟨fun _ _ _ _ _ _ _ _ => rfl, fun _ _ _ _ _ _ _ => ⟨_, rfl⟩⟩

/-- C7: with the registry knowing exactly domains 0, 1, 3 and 6 and the
external response reporting 10.0 on domain 0 and 5.5 on domain 1,
getUnifiedBalance returns totalBalance 15500000 (6-decimal fixed point) and
the per-domain map with exactly the bindings 0 ↦ 10000000 and 1 ↦ 5500000;
domains 3 and 6 are absent from the map, not zero entries. -/
theorem C7_scenario :
    Gateway.CHAINS.map Prod.fst = [0, 1, 3, 6] ∧
    (Gateway.getUnifiedBalance [] "0xuser"
      (some [⟨0, "10.0"⟩, ⟨1, "5.5"⟩]) 1000).1.totalBalance = 15500000 ∧
    (Gateway.getUnifiedBalance [] "0xuser"
      (some [⟨0, "10.0"⟩, ⟨1, "5.5"⟩]) 1000).1.chainBalances =
      [(0, 10000000), (1, 5500000)] ∧
    assocGet (Gateway.getUnifiedBalance [] "0xuser"
      (some [⟨0, "10.0"⟩, ⟨1, "5.5"⟩]) 1000).1.chainBalances 3 = none ∧
    assocGet (Gateway.getUnifiedBalance [] "0xuser"
      (some [⟨0, "10.0"⟩, ⟨1, "5.5"⟩]) 1000).1.chainBalances 6 = none := by
  refine ⟨rfl, by decide, by decide, by decide, by decide⟩

/-- C9: getChainIdForDomain is total: it returns 11155111, 43113, 421614 and
84532 for domains 0, 1, 3 and 6, and 0 for every other domain, and
transferToVault therefore proceeds for an unrecognized domain (here 2),
building and signing typed data whose domain separator carries chainId 0
instead of raising an error — witnessed by a signing capability that records
the chainId it is given. -/
theorem C9_getChainIdForDomain_total :
    Gateway.getChainIdForDomain 0 = 11155111 ∧
    Gateway.getChainIdForDomain 1 = 43113 ∧
    Gateway.getChainIdForDomain 3 = 421614 ∧
    Gateway.getChainIdForDomain 6 = 84532 ∧
    (∀ d : Int, d ≠ 0 → d ≠ 1 → d ≠ 3 → d ≠ 6 → Gateway.getChainIdForDomain d = 0) ∧
    (∀ (k vault u : String) (wc : List (Int × String)) (nowMs : Nat) (nc : Nat → Int),
      Gateway.transferToVault ⟨some k, vault, wc⟩ u [⟨2, "7"⟩] 0 nowMs nc
          (fun td => toString td.domain.chainId) =
        .ok [(⟨u, 7, nc 0, 2, 3, vault, 0, Int.ofNat (nowMs / 1000 + 3600)⟩, "0")]) := by
  refine ⟨rfl, rfl, rfl, rfl, ?_, fun _ _ _ _ _ _ => rfl⟩
  intro d h0 h1 h3 h6
  simp only [Gateway.getChainIdForDomain, assocGet]
  rw [if_neg (fun hc : (0 : Int) = d => h0 hc.symm),
    if_neg (fun hc : (1 : Int) = d => h1 hc.symm),
    if_neg (fun hc : (3 : Int) = d => h3 hc.symm),
    if_neg (fun hc : (6 : Int) = d => h6 hc.symm)]
  rfl

/-- Witness for C9 at the unrecognized domain 2. -/
theorem C9_getChainIdForDomain_total_witness :
    Gateway.getChainIdForDomain 2 = 0 :=
  C9_getChainIdForDomain_total.2.2.2.2.1 2 (by decide) (by decide) (by decide) (by decide)

/-- C1 (counterexample): the claim fails when the external response lists the
same domain twice.  For the response [(0, "1.0"), (0, "1.0")] the loop adds
both amounts into totalBalance (2000000) while the record assignment
overwrites the single entry for domain 0, so the per-domain map sums to only
1000000. -/
theorem C1_counterexample :
    (Gateway.getUnifiedBalance [] "0xa"
      (some [⟨0, "1.0"⟩, ⟨0, "1.0"⟩]) 0).1.totalBalance = 2000000 ∧
    Gateway.sumValues (Gateway.getUnifiedBalance [] "0xa"
      (some [⟨0, "1.0"⟩, ⟨0, "1.0"⟩]) 0).1.chainBalances = 1000000 ∧
    (Gateway.getUnifiedBalance [] "0xa"
      (some [⟨0, "1.0"⟩, ⟨0, "1.0"⟩]) 0).1.totalBalance ≠
      Gateway.sumValues (Gateway.getUnifiedBalance [] "0xa"
        (some [⟨0, "1.0"⟩, ⟨0, "1.0"⟩]) 0).1.chainBalances := by
  refine ⟨by decide, by decide, by decide⟩

/-- C1 (amended): for every response of the external balances call whose
entries carry pairwise-distinct domains (and a cache whose entries satisfy
the same invariant, as every entry produced by such responses does), the
UnifiedBalance returned by getUnifiedBalance satisfies totalBalance = sum of
the values of its per-domain balance map — on the success, cached-fallback
and zero-fallback paths alike. -/
theorem C1_totalBalance_eq_sum (cache : List (String × Gateway.UnifiedBalance))
    (address : String) (response : Option (List Gateway.BalanceEntry)) (now : Nat)
    (hcache : ∀ p ∈ cache, Gateway.balInv p.2)
    (hnodup : ∀ entries, response = some entries →
      (entries.map Gateway.BalanceEntry.domain).Nodup) :
    Gateway.balInv (Gateway.getUnifiedBalance cache address response now).1 := by
  unfold Gateway.getUnifiedBalance
  split
  · next parsed heq =>
      obtain ⟨entries, rfl⟩ : ∃ entries, response = some entries := by
        cases response with
        | none => simp at heq
        | some e => exact ⟨e, rfl⟩
      simp only [Option.some_bind] at heq
      have hnd : (parsed.map Prod.fst).Nodup := by
        rw [parseEntries_domains heq]
        exact hnodup entries rfl
      show (parsed.map Prod.snd).sum = Gateway.sumValues (Gateway.buildRecord parsed)
      rw [buildRecord_nodup hnd]
      rfl
  · next heq =>
      split
      · next cached hget =>
          exact hcache _ (assocGet_mem hget)
      · next hget =>
          show (0 : Int) = Gateway.sumValues []
          rfl

/-- Witness for C1 (amended) at the duplicate-free response of the C7
scenario over the empty cache. -/
theorem C1_totalBalance_eq_sum_witness :
    Gateway.balInv (Gateway.getUnifiedBalance [] "0xuser"
      (some [⟨0, "10.0"⟩, ⟨1, "5.5"⟩]) 1000).1 :=
  C1_totalBalance_eq_sum [] "0xuser" (some [⟨0, "10.0"⟩, ⟨1, "5.5"⟩]) 1000
    (by intro p hp; simp at hp)
    (by intro entries he; injection he with he2; subst he2; decide)

/-- C4 (counterexample): domain 99 exists nowhere in the registry (CHAINS has
no entry and getChainIdForDomain falls back to 0), yet transferToVault in the
initialized state constructs and signs a burn intent with sourceDomain 99 and
submits it. -/
theorem C4_counterexample :
    Gateway.transferToVault ⟨some "0xkey", "0xVault", Gateway.initialWalletContracts⟩
        "0xUser" [⟨99, "5"⟩] 5 0 (fun _ => 0) (fun _ => "sig") =
      .ok [(⟨"0xUser", 5, 0, 99, 3, "0xVault", 0, 3600⟩, "sig")] ∧
    assocGet Gateway.CHAINS 99 = none ∧
    Gateway.getChainIdForDomain 99 = 0 :=
  ⟨rfl, rfl, rfl⟩

/-- C4 (amended): transferToVault performs no registry-membership validation:
whenever it succeeds it has constructed and signed exactly one burn intent
per sources entry, in order, whose sourceDomain is the domain of that entry —
whether or not the domain is known to the registry (an unknown domain is
signed under chainId 0). -/
theorem C4_intent_per_entry_regardless (svc : Gateway.ServiceState) (u : String)
    (srcs : List Gateway.SourceEntry) (t : Int) (nowMs : Nat) (nc : Nat → Int)
    (sg : Gateway.BurnIntentTypedData → String) (l : List (Gateway.BurnIntent × String))
    (h : Gateway.transferToVault svc u srcs t nowMs nc sg = .ok l) :
    l.map (fun p => p.1.sourceDomain) = srcs.map Gateway.SourceEntry.domain := by
  unfold Gateway.transferToVault at h
  cases hw : svc.walletClient with
  | none => rw [hw] at h; exact absurd h (by simp)
  | some k =>
      rw [hw] at h
      exact (buildSignedIntents_ok h).1

/-- Witness for C4 (amended) at the unknown domain 99. -/
theorem C4_intent_per_entry_regardless_witness :
    ([(⟨"0xUser", 5, 0, 99, 3, "0xVault", 0, 3600⟩, "sig")] :
        List (Gateway.BurnIntent × String)).map (fun p => p.1.sourceDomain) =
      ([⟨99, "5"⟩] : List Gateway.SourceEntry).map Gateway.SourceEntry.domain :=
  C4_intent_per_entry_regardless
    ⟨some "0xkey", "0xVault", Gateway.initialWalletContracts⟩
    "0xUser" [⟨99, "5"⟩] 5 0 (fun _ => 0) (fun _ => "sig")
    [(⟨"0xUser", 5, 0, 99, 3, "0xVault", 0, 3600⟩, "sig")] rfl

/-- C6: every burn intent built by a successful transferToVault run whose
deadline computation reads Date.now() = nowMs milliseconds (wall-clock time
T = nowMs / 1000 seconds) carries deadline T + 3600 and the vault address as
recipient; and the EIP-712 message field re-encodes that 20-byte recipient
address (0x followed by 40 hex characters) as the 32-byte value obtained by
left-padding with 12 zero bytes — 24 zero hex characters — giving a 66
character 0x-tagged hex string. -/
theorem C6_deadline_and_recipient_encoding :
    (∀ (svc : Gateway.ServiceState) (u : String) (srcs : List Gateway.SourceEntry)
       (t : Int) (nowMs : Nat) (nc : Nat → Int) (sg : Gateway.BurnIntentTypedData → String)
       (l : List (Gateway.BurnIntent × String)),
      Gateway.transferToVault svc u srcs t nowMs nc sg = .ok l →
      ∀ p ∈ l, p.1.deadline = Int.ofNat (nowMs / 1000 + 3600) ∧
        p.1.recipient = svc.vaultAddress) ∧
    (∀ (intent : Gateway.BurnIntent) (wc : Option String) (cid : Int) (la : List Char),
      intent.recipient = "0x" ++ String.mk la →
      (Gateway.createBurnIntentTypedData intent wc cid).message.recipient =
        "0x000000000000000000000000" ++ String.mk la ∧
      (Gateway.createBurnIntentTypedData intent wc cid).message.recipient.length =
        26 + la.length) := by
  constructor
  · intro svc u srcs t nowMs nc sg l h p hp
    unfold Gateway.transferToVault at h
    cases hw : svc.walletClient with
    | none => rw [hw] at h; exact absurd h (by simp)
    | some k =>
        rw [hw] at h
        have h2 := (buildSignedIntents_ok h).2 p hp
        exact ⟨h2.1, h2.2.1⟩
  · intro intent wc cid la ha
    have hrec : (Gateway.createBurnIntentTypedData intent wc cid).message.recipient =
        "0x000000000000000000000000" ++ String.mk la := by
      show "0x000000000000000000000000" ++ Gateway.sliceFrom intent.recipient 2 = _
      rw [ha]
      rfl
    refine ⟨hrec, ?_⟩
    rw [hrec, String.length_append,
      show ("0x000000000000000000000000" : String).length = 26 from rfl]
    rfl

/-- Witness for C6 at a concrete initialized run with nowMs = 5000 and the
vault address 0x followed by 40 hex characters. -/
theorem C6_deadline_and_recipient_encoding_witness :
    ((⟨"0xUser", 5, 0, 0, 3, "0x1111111111222222222233333333334444444444", 0, 3605⟩ :
        Gateway.BurnIntent).deadline = Int.ofNat (5000 / 1000 + 3600) ∧
      (⟨"0xUser", 5, 0, 0, 3, "0x1111111111222222222233333333334444444444", 0, 3605⟩ :
        Gateway.BurnIntent).recipient =
        (⟨some "0xkey", "0x1111111111222222222233333333334444444444",
          Gateway.initialWalletContracts⟩ : Gateway.ServiceState).vaultAddress) ∧
    (Gateway.createBurnIntentTypedData
        ⟨"0xUser", 5, 0, 0, 3, "0x1111111111222222222233333333334444444444", 0, 3605⟩
        (some "0xw") 11155111).message.recipient =
      "0x000000000000000000000000" ++
        String.mk "1111111111222222222233333333334444444444".data ∧
    (Gateway.createBurnIntentTypedData
        ⟨"0xUser", 5, 0, 0, 3, "0x1111111111222222222233333333334444444444", 0, 3605⟩
        (some "0xw") 11155111).message.recipient.length =
      26 + "1111111111222222222233333333334444444444".data.length :=
  ⟨C6_deadline_and_recipient_encoding.1
      ⟨some "0xkey", "0x1111111111222222222233333333334444444444",
        Gateway.initialWalletContracts⟩
      "0xUser" [⟨0, "5"⟩] 5 5000 (fun _ => 0) (fun _ => "sig")
      [(⟨"0xUser", 5, 0, 0, 3, "0x1111111111222222222233333333334444444444", 0, 3605⟩,
        "sig")] rfl
      (⟨"0xUser", 5, 0, 0, 3, "0x1111111111222222222233333333334444444444", 0, 3605⟩,
        "sig")
      (List.mem_singleton.mpr rfl),
   C6_deadline_and_recipient_encoding.2
      ⟨"0xUser", 5, 0, 0, 3, "0x1111111111222222222233333333334444444444", 0, 3605⟩
      (some "0xw") 11155111 "1111111111222222222233333333334444444444".data rfl⟩

/-- C8 (counterexample): getUnifiedBalance does not normalize the address
field of its result: for the mixed-case input "0xAB" the success path returns
the address exactly as passed, which differs from its lower-case form. -/
theorem C8_counterexample :
    (Gateway.getUnifiedBalance [] "0xAB" (some [⟨0, "1.0"⟩]) 5).1.address = "0xAB" ∧
    Gateway.toLowerCase "0xAB" = "0xab" ∧
    (Gateway.getUnifiedBalance [] "0xAB" (some [⟨0, "1.0"⟩]) 5).1.address ≠
      Gateway.toLowerCase "0xAB" :=
  ⟨rfl, rfl, by decide⟩

/-- C8 (amended): only the cache key is normalized.  On the success path the
returned address field is the input address exactly as passed and the entry
is cached under the lower-cased address; on the no-cache-entry failure path
the returned address field is again the address as passed (the cache-hit
failure path returns whatever address was stored when the entry was cached). -/
theorem C8_address_as_passed (cache : List (String × Gateway.UnifiedBalance))
    (address : String) (entries : List Gateway.BalanceEntry) (now : Nat)
    (parsed : List (Int × Int)) (hp : Gateway.parseEntries entries = some parsed) :
    (Gateway.getUnifiedBalance cache address (some entries) now).1.address = address ∧
    (Gateway.getUnifiedBalance cache address (some entries) now).2 =
      assocSet cache (Gateway.toLowerCase address)
        (Gateway.getUnifiedBalance cache address (some entries) now).1 ∧
    (assocGet cache (Gateway.toLowerCase address) = none →
      (Gateway.getUnifiedBalance cache address none now).1.address = address) := by
  refine ⟨?_, ?_, ?_⟩
  · simp [Gateway.getUnifiedBalance, hp]
  · simp [Gateway.getUnifiedBalance, hp]
  · intro hget
    simp [Gateway.getUnifiedBalance, hget]

/-- Witness for C8 (amended) at a concrete mixed-case address over the empty
cache. -/
theorem C8_address_as_passed_witness :
    (Gateway.getUnifiedBalance [] "0xAB" (some [⟨0, "1.0"⟩]) 5).1.address = "0xAB" :=
  (C8_address_as_passed [] "0xAB" [⟨0, "1.0"⟩] 5 [(0, 1000000)] rfl).1

/-- C10: parseOracleConfig is total on JSON values and returns null exactly
when the input is not a (truthy) object-typed value whose type field is the
string "price" or "manual"; for an object with type "price" it always
returns a price config, substituting the defaults "" / ">" / 0 for missing
or falsy asset / condition / targetPrice fields instead of rejecting the
input. -/
theorem C10_parseOracleConfig_total (j : Oracle.Js) :
    (Oracle.parseOracleConfig j = none ↔
      ¬ (Oracle.isObject j = true ∧
          (Oracle.getField j "type" = some (.strV "price") ∨
           Oracle.getField j "type" = some (.strV "manual")))) ∧
    (Oracle.isObject j = true → Oracle.getField j "type" = some (.strV "price") →
      ∃ pc, Oracle.parseOracleConfig j = some (.price pc) ∧
        (Oracle.falsyField (Oracle.getField j "asset") → pc.asset = "") ∧
        (Oracle.falsyField (Oracle.getField j "condition") → pc.condition = .strV ">") ∧
        (Oracle.falsyField (Oracle.getField j "targetPrice") → pc.targetPrice = some 0)) := by
  by_cases hobj : Oracle.isObject j = true
  · have htr : Oracle.truthy j = true := by
      cases j <;> simp_all [Oracle.isObject, Oracle.truthy]
    constructor
    · cases hty : Oracle.getField j "type" with
      | none => simp [Oracle.parseOracleConfig, hobj, htr, hty]
      | some v =>
          cases v with
          | strV s =>
              by_cases hs1 : s = "price"
              · subst hs1
                simp [Oracle.parseOracleConfig, hobj, htr, hty]
              · by_cases hs2 : s = "manual"
                · subst hs2
                  simp [Oracle.parseOracleConfig, hobj, htr, hty]
                · simp [Oracle.parseOracleConfig, hobj, htr, hty, hs1, hs2]
          | nullV => simp [Oracle.parseOracleConfig, hobj, htr, hty]
          | boolV b => simp [Oracle.parseOracleConfig, hobj, htr, hty]
          | numV q => simp [Oracle.parseOracleConfig, hobj, htr, hty]
          | arrV xs => simp [Oracle.parseOracleConfig, hobj, htr, hty]
          | objV fs => simp [Oracle.parseOracleConfig, hobj, htr, hty]
    · intro _ hty
      refine ⟨⟨Oracle.jsToString (Oracle.orDefault (Oracle.getField j "asset") (.strV "")),
        Oracle.orDefault (Oracle.getField j "condition") (.strV ">"),
        Oracle.jsNumber (Oracle.orDefault (Oracle.getField j "targetPrice") (.numV 0))⟩,
        ?_, ?_, ?_, ?_⟩
      · simp [Oracle.parseOracleConfig, hobj, htr, hty]
      · intro hf
        cases hga : Oracle.getField j "asset" with
        | none => simp [Oracle.orDefault, Oracle.jsToString]
        | some x =>
            rw [hga] at hf
            simp only [Oracle.falsyField] at hf
            simp [Oracle.orDefault, hf, Oracle.jsToString]
      · intro hf
        cases hga : Oracle.getField j "condition" with
        | none => simp [Oracle.orDefault]
        | some x =>
            rw [hga] at hf
            simp only [Oracle.falsyField] at hf
            simp [Oracle.orDefault, hf]
      · intro hf
        cases hga : Oracle.getField j "targetPrice" with
        | none => simp [Oracle.orDefault, Oracle.jsNumber]
        | some x =>
            rw [hga] at hf
            simp only [Oracle.falsyField] at hf
            simp [Oracle.orDefault, hf, Oracle.jsNumber]
  · have hobj2 : Oracle.isObject j = false := by
      simpa using hobj
    constructor
    · simp [Oracle.parseOracleConfig, hobj2]
    · intro hO
      exact absurd hO hobj

/-- Witness for C10 at the object with type "price" and no other fields: all
three defaults apply. -/
theorem C10_parseOracleConfig_total_witness :
    ∃ pc, Oracle.parseOracleConfig (.objV [("type", .strV "price")]) =
        some (.price pc) ∧
      (Oracle.falsyField (Oracle.getField (.objV [("type", .strV "price")]) "asset") →
        pc.asset = "") ∧
      (Oracle.falsyField (Oracle.getField (.objV [("type", .strV "price")]) "condition") →
        pc.condition = .strV ">") ∧
      (Oracle.falsyField (Oracle.getField (.objV [("type", .strV "price")]) "targetPrice") →
        pc.targetPrice = some 0) :=
  (C10_parseOracleConfig_total (.objV [("type", .strV "price")])).2 rfl rfl
